import Mathlib

/-!
Verification of the stateful sequential API test execution engine in
`scripts/api-check.py`.

The Python script is shallowly embedded as executable Lean definitions.
The HTTP transport is modelled as an oracle `Nat → TransportResult`
giving the outcome of the i-th request of a run; `requests.request` is
the only effect in the source, so a run is a pure fold over the test
list.  JSON values are modelled by the inductive `Json`; a test's
`data` field is carried in its serialized form (the source only ever
inspects `json.dumps(test["data"])`, substitutes into that string and
parses it back, so the serialized form is the authoritative view).
JSON rendering (`jdump`) uses the compact separators; the source uses
`indent=2`, which differs only in inserted whitespace and never splits
a string value, so substring properties of tokens and record ids are
unaffected.  Strings are processed through explicit `List Char`
functions so that every definition evaluates inside the kernel.
-/

namespace ApiCheck

/-- Parsed JSON values, as produced by `resp.json()` in the source. -/
inductive Json where
  | null
  | bool (b : Bool)
  | num (n : Int)
  | str (s : String)
  | arr (elems : List Json)
  | obj (fields : List (String × Json))

/-- Python truthiness of a JSON value (`if response_obj:`, `if record_id:` ...). -/
def jsonTruthy : Json → Bool
  | .null => false
  | .bool b => b
  | .num n => n != 0
  | .str s => s != ""
  | .arr l => !l.isEmpty
  | .obj l => !l.isEmpty

/-- `listLeads pat s` is true when `pat` is an initial segment of `s`. -/
def listLeads : List Char → List Char → Bool
  | [], _ => true
  | _ :: _, [] => false
  | p :: ps, c :: cs => p == c && listLeads ps cs

/-- Fuelled engine of Python `str.replace`: replaces non-overlapping
occurrences of `pat` left to right.  The fuel is the length of the
subject, which suffices because an occurrence of a non-empty pattern
consumes at least one character. -/
def replChars : Nat → List Char → List Char → List Char → List Char
  | 0, s, _, _ => s
  | fuel + 1, s, pat, rep =>
    match s with
    | [] => []
    | c :: rest =>
      if pat ≠ [] && listLeads pat s then
        rep ++ replChars fuel (s.drop pat.length) pat rep
      else
        c :: replChars fuel rest pat rep

/-- Python `s.replace(pat, rep)` (for the non-empty patterns the script uses). -/
def strReplace (s pat rep : String) : String :=
  ⟨replChars s.data.length s.data pat.data rep.data⟩

/-- Engine of the Python `pat in s` substring test. -/
def containsChars : List Char → List Char → Bool
  | _, [] => false
  | pat, c :: rest => listLeads pat (c :: rest) || containsChars pat rest

/-- Python `pat in s` substring containment. -/
def strContains (s pat : String) : Bool :=
  containsChars pat.data s.data

/-- True when the first character of the list is the digit 2. -/
def headIs2 : List Char → Bool
  | [] => false
  | c :: _ => c == '2'

/-- Python `status.startswith("2")`. -/
def startsWith2 (s : String) : Bool :=
  headIs2 s.data

/-- The ASCII digit character for `d < 10`. -/
def digitChar (d : Nat) : Char := Char.ofNat (48 + d)

/-- Fuelled decimal digit expansion of a natural number. -/
def natToDigitsAux : Nat → Nat → List Char
  | 0, _ => []
  | fuel + 1, n =>
    if n < 10 then [digitChar n]
    else natToDigitsAux fuel (n / 10) ++ [digitChar (n % 10)]

/-- Decimal rendering of a natural number (as Python `str`/f-strings do). -/
def natToStr (n : Nat) : String := ⟨natToDigitsAux (n + 1) n⟩

/-- Decimal rendering of an integer. -/
def intToStr (n : Int) : String :=
  if n < 0 then "-" ++ natToStr (- n).toNat else natToStr n.toNat

mutual
/-- `json.dumps` on the modelled JSON values, with the compact Python
separators.  String values are emitted verbatim (the inputs relevant to
the claims contain no characters needing escapes). -/
def jdump : Json → String
  | .null => "null"
  | .bool true => "true"
  | .bool false => "false"
  | .num n => intToStr n
  | .str s => "\"" ++ s ++ "\""
  | .arr l => "[" ++ String.intercalate ", " (jdumpList l) ++ "]"
  | .obj l => "\x7b" ++ String.intercalate ", " (jdumpFields l) ++ "\x7d"
/-- Renders each array element. -/
def jdumpList : List Json → List String
  | [] => []
  | j :: rest => jdump j :: jdumpList rest
/-- Renders each `"key": value` member of an object. -/
def jdumpFields : List (String × Json) → List String
  | [] => []
  | (k, v) :: rest => ("\"" ++ k ++ "\": " ++ jdump v) :: jdumpFields rest
end

/-- Python ASCII `.upper()` on one character (the script only ever
uppercases HTTP method names). -/
def charUpper (c : Char) : Char :=
  if 'a' ≤ c && c ≤ 'z' then Char.ofNat (c.toNat - 32) else c

/-- Python `s.upper()` restricted to ASCII. -/
def upperStr (s : String) : String := ⟨s.data.map charUpper⟩

/-- Python `s.strip()`: removes leading and trailing whitespace. -/
def strTrim (s : String) : String :=
  ⟨((s.data.dropWhile Char.isWhitespace).reverse.dropWhile Char.isWhitespace).reverse⟩

/-- One test case of a suite file.  The `data` field carries the
serialized JSON form of the payload (see the file header). -/
structure TestCase where
  name : Option String := none
  cmd : Option String := none
  endpoint : Option String := none
  headers : Option (List (String × String)) := none
  data : Option String := none
  details : Option String := none
  notes : Option String := none

/-- A suite file.  `pfx` models the source's optional `"prefix"` key. -/
structure TestSuite where
  serverURL : String
  docURL : String
  pfx : Option String := none
  tests : List TestCase

/-- A successful HTTP exchange as seen through the `requests` library:
numeric status code, reason phrase, raw body text, and the parsed JSON
body when `resp.json()` succeeds. -/
structure HttpResponse where
  status_code : Nat
  reason : String
  text : String
  jsonBody : Option Json

/-- Outcome of one call to `requests.request`: either a response or a
raised transport exception with its `str(e)` message. -/
inductive TransportResult where
  | ok (resp : HttpResponse)
  | exc (msg : String)

/-- The request handed to the transport (method, resolved URL, headers,
serialized payload). -/
structure Request where
  method : String
  url : String
  headers : List (String × String)
  data : Option String

/-- The tuple returned by `run_test`, plus the request that was issued. -/
structure RTOut where
  curl_cmd : String
  status : String
  body_str : String
  response_obj : Option Json
  req : Request

/-- `build_curl_command(url, method, headers, data)`.  The source
pretty-prints dict payloads with extra indentation before wrapping them
in the `-d` argument; the serialized form is emitted directly here, a
whitespace-only difference.  Appending a trailing backslash to every
line but the last and joining with newlines is written as one
intercalation.  `\x27` is the single-quote character. -/
def build_curl_command (url method : String) (headers : List (String × String))
    (data : Option String) : String :=
  let curl_lines := ["curl -s -X " ++ method ++ " \"" ++ url ++ "\""]
    ++ headers.map (fun kv => "    -H \"" ++ kv.1 ++ ": " ++ kv.2 ++ "\"")
    ++ (match data with
        | some d => ["    -d \x27" ++ d ++ "\x27"]
        | none => [])
  String.intercalate " \\\n" curl_lines ++ " | jq ."

/-- The status line and body text of a transport outcome, as `run_test`
computes them: `"<code> <reason>"` on success (the dumped JSON body when
it parses, the raw text otherwise) and the `"ERROR"` sentinel with the
stringified exception on transport failure. -/
def statusOf : TransportResult → String
  | .ok resp => natToStr resp.status_code ++ " " ++ resp.reason
  | .exc _ => "ERROR"

/-- The body text `run_test` reports for a transport outcome. -/
def bodyOf : TransportResult → String
  | .ok resp =>
    match resp.jsonBody with
    | some b => jdump b
    | none => resp.text
  | .exc e => e

/-- `run_test(base_url, prefix, test)` with the transport outcome made
explicit.  Returns the curl command, status line, body text, parsed
response object, and the issued request. -/
def run_test (base_url pfx : String) (test : TestCase) (tr : TransportResult) : RTOut :=
  let method := upperStr (test.cmd.getD "GET")
  let endpoint := test.endpoint.getD "/"
  let url := base_url ++ pfx ++ endpoint
  let headers := test.headers.getD []
  let data := test.data
  let curl_cmd := build_curl_command url method headers data
  match tr with
  | .ok resp =>
    (match resp.jsonBody with
     | some b => ⟨curl_cmd, natToStr resp.status_code ++ " " ++ resp.reason, jdump b,
                  some b, ⟨method, url, headers, data⟩⟩
     | none => ⟨curl_cmd, natToStr resp.status_code ++ " " ++ resp.reason, resp.text,
                none, ⟨method, url, headers, data⟩⟩)
  | .exc e => ⟨curl_cmd, "ERROR", e, none, ⟨method, url, headers, data⟩⟩

/-- Truthiness of optional display strings (`if details:` and friends). -/
def optTruthy : Option String → Bool
  | none => false
  | some s => s != ""

/-- `format_markdown_result`: one Markdown block per rendered test. -/
def format_markdown_result (curl_cmd status body : String) (test_name : Option String)
    (details notes : Option String) : List String :=
  let heading := match test_name with
    | some n => if n != "" then "### " ++ n ++ "\n\n" else ""
    | none => ""
  let details_section := match details with
    | some d => if d != "" then d ++ "\n\n" else ""
    | none => ""
  let notes_section := match notes with
    | some n => if n != "" then n ++ "\n\n" else ""
    | none => ""
  [heading ++ details_section ++ notes_section ++ "```bash\n" ++ curl_cmd ++ "\n```",
   "\n**Response (" ++ status ++ "):**\n",
   "```json\n" ++ body ++ "\n```\n"]

/-- Looks up `key` at the top level when the response is an object
(Python `response_obj.get(key)` / `key in response_obj`). -/
def jget (r : Option Json) (key : String) : Option Json :=
  match r with
  | some (Json.obj fields) => List.lookup key fields
  | _ => none

/-- `response_obj[dictKey][innerKey]` when `response_obj[dictKey]` is a dict. -/
def dictLookupKey (fields : List (String × Json)) (dictKey innerKey : String) : Option Json :=
  match List.lookup dictKey fields with
  | some (Json.obj sub) => List.lookup innerKey sub
  | _ => none

/-- The array-shape scan of `extract_record_id_from_response`: for each
candidate key in order, when it holds a non-empty array, pick the second
element for `users` (when at least two exist) and the first otherwise,
and return its `id` field when the chosen element is a dict carrying
one; otherwise move on to the next key. -/
def arrayScan (fields : List (String × Json)) : List String → Option Json
  | [] => none
  | key :: rest =>
    match List.lookup key fields with
    | some (Json.arr elems) =>
      if elems.length > 0 then
        match (if key == "users" && elems.length > 1
               then elems.getD 1 Json.null else elems.getD 0 Json.null) with
        | Json.obj sub =>
          (match List.lookup "id" sub with
           | some v => some v
           | none => arrayScan fields rest)
        | _ => arrayScan fields rest
      else arrayScan fields rest
    | _ => arrayScan fields rest

/-- The trailing `_id`/`ulid`/`uuid` scan: each key is tried at the top
level and then under a dict-valued `data`, in order. -/
def altKeyScan (fields : List (String × Json)) : List String → Option Json
  | [] => none
  | key :: rest =>
    match List.lookup key fields with
    | some v => some v
    | none =>
      match dictLookupKey fields "data" key with
      | some v => some v
      | none => altKeyScan fields rest

/-- `extract_record_id_from_response(response_obj)`: the prioritized
shape-based record-id heuristic.  A missing, falsy, or non-dict
response yields nothing. -/
def extract_record_id_from_response (response_obj : Option Json) : Option Json :=
  match response_obj with
  | some (Json.obj fields) =>
    if fields.isEmpty then none
    else
      match List.lookup "id" fields with
      | some v => some v
      | none =>
        match dictLookupKey fields "data" "id" with
        | some v => some v
        | none =>
          match dictLookupKey fields "record" "id" with
          | some v => some v
          | none =>
            match arrayScan fields ["apikeys", "users", "data", "records", "items"] with
            | some v => some v
            | none => altKeyScan fields ["_id", "ulid", "uuid"]
  | _ => none

/-- Python truthiness of a test's `data` payload, decided on its
serialized form: exactly the serializations of the falsy JSON values. -/
def dataTruthy (d : String) : Bool :=
  !(["null", "false", "0", "0.0", "\"\"", "[]", "\x7b\x7d"].contains d)

/-- `replace_record_in_test(test, record_id)`: substitutes `$NEXT_CURSOR`
(first) or `$ULID` into the endpoint, then independently into the
serialized data, and reports the last placeholder kind used. -/
def replace_record_in_test (test : TestCase) (record_id : String) : TestCase × Option String :=
  if record_id == "" then (test, none)
  else
    let epRes : TestCase × Option String :=
      match test.endpoint with
      | some e =>
        if strContains e "$NEXT_CURSOR" then
          ({ test with endpoint := some (strReplace e "$NEXT_CURSOR" record_id) }, some "$NEXT_CURSOR")
        else if strContains e "$ULID" then
          ({ test with endpoint := some (strReplace e "$ULID" record_id) }, some "$ULID")
        else (test, none)
      | none => (test, none)
    match epRes.1.data with
    | some d =>
      if dataTruthy d then
        if strContains d "$NEXT_CURSOR" then
          ({ epRes.1 with data := some (strReplace d "$NEXT_CURSOR" record_id) }, some "$NEXT_CURSOR")
        else if strContains d "$ULID" then
          ({ epRes.1 with data := some (strReplace d "$ULID" record_id) }, some "$ULID")
        else epRes
      else epRes
    | none => epRes

/-- One rendered-and-recorded test outcome.  `curlDoc` is the
documentation form of the command; the trace fields are observations of
the loop for stating theorems and add nothing to the computation. -/
structure TestResult where
  req : Request
  status : String
  body : String
  curlDoc : String
  placeholderUsed : Option String

/-- The mutable locals of `run_all_tests`, threaded through the loop. -/
structure RunState where
  accessToken : Option String
  refreshToken : Option String
  capturedRecordId : Option Json
  allAccessTokens : List String
  allRefreshTokens : List String
  allOk : Bool
  resultsMd : List String
  trace : List TestResult

/-- Python truthiness of an optional token string. -/
def tokTruthy : Option String → Bool
  | none => false
  | some s => s != ""

/-- Python truthiness of an optional JSON value (the captured id or the
parsed response object). -/
def optJsonTruthy : Option Json → Bool
  | none => false
  | some v => jsonTruthy v

/-- The string content of a captured id.  The source passes the captured
value directly to `str.replace`, which raises for non-strings; claims
only concern string-valued ids, for which this is exact. -/
def jstr : Json → String
  | .str s => s
  | _ => ""

/-- Rebinds `key` in a header mapping (Python dict item assignment). -/
def updateAssoc (hs : List (String × String)) (key val : String) : List (String × String) :=
  hs.map fun kv => if kv.1 == key then (kv.1, val) else kv

/-- Loop step 1: `$ULID`/`$NEXT_CURSOR` substitution when an id has been
captured (lines 232-235 of the source). -/
def substRecordId (st : RunState) (test : TestCase) : TestCase × Option String :=
  if optJsonTruthy st.capturedRecordId then
    replace_record_in_test test (jstr (st.capturedRecordId.getD Json.null))
  else (test, none)

/-- Loop step 2: `$ACCESS_TOKEN` substitution into the Authorization
header when a truthy token is held (lines 237-239). -/
def substAccessToken (st : RunState) (test : TestCase) : TestCase :=
  if tokTruthy st.accessToken then
    match test.headers with
    | some hs =>
      match List.lookup "Authorization" hs with
      | some auth =>
        { test with headers := some (updateAssoc hs "Authorization"
            (strReplace auth "$ACCESS_TOKEN" (st.accessToken.getD ""))) }
      | none => test
    | none => test
  else test

/-- Loop step 3: `$REFRESH_TOKEN` substitution into the serialized data
when a truthy refresh token is held (lines 241-246). -/
def substRefreshToken (st : RunState) (test : TestCase) : TestCase :=
  if tokTruthy st.refreshToken then
    match test.data with
    | some d =>
      if dataTruthy d && strContains d "$REFRESH_TOKEN" then
        { test with data := some (strReplace d "$REFRESH_TOKEN" (st.refreshToken.getD "")) }
      else test
    | none => test
  else test

/-- Appends a token to the de-duplicated token history. -/
def addUnique (l : List String) (s : String) : List String :=
  if l.contains s then l else l ++ [s]

/-- Captures a truthy `access_token` field of the response.  Non-string
truthy tokens make the source raise at the redaction `str.replace`
within the same iteration and are not modelled. -/
def captureAccess (st : RunState) (response_obj : Option Json) : RunState :=
  match jget response_obj "access_token" with
  | some (Json.str s) =>
    if s != "" then
      { st with accessToken := some s, allAccessTokens := addUnique st.allAccessTokens s }
    else st
  | _ => st

/-- Captures a truthy `refresh_token` field of the response. -/
def captureRefresh (st : RunState) (response_obj : Option Json) : RunState :=
  match jget response_obj "refresh_token" with
  | some (Json.str s) =>
    if s != "" then
      { st with refreshToken := some s, allRefreshTokens := addUnique st.allRefreshTokens s }
    else st
  | _ => st

/-- Loop step 5: token capture after a truthy 2xx response to a POST on
an `auth:login`/`auth:refresh` endpoint (lines 250-264). -/
def captureTokens (st : RunState) (status : String) (response_obj : Option Json)
    (test : TestCase) : RunState :=
  if optJsonTruthy response_obj && startsWith2 status
      && (upperStr (test.cmd.getD "GET") == "POST") then
    if strContains (test.endpoint.getD "") "auth:login"
        || strContains (test.endpoint.getD "") "auth:refresh" then
      captureRefresh (captureAccess st response_obj) response_obj
    else st
  else st

/-- Loop step 6: first-success record-id capture after a truthy 2xx
response to a `:create`/`:list` endpoint (lines 266-272). -/
def captureRecordId (st : RunState) (status : String) (response_obj : Option Json)
    (test : TestCase) : RunState :=
  if optJsonTruthy response_obj && startsWith2 status
      && !(optJsonTruthy st.capturedRecordId) then
    if strContains (test.endpoint.getD "") ":create"
        || strContains (test.endpoint.getD "") ":list" then
      match extract_record_id_from_response response_obj with
      | some v => if jsonTruthy v then { st with capturedRecordId := some v } else st
      | none => st
    else st
  else st

/-- Replaces every truthy token of the history by its placeholder. -/
def redactAll (cmd : String) (tokens : List String) (ph : String) : String :=
  tokens.foldl (fun c t => if t != "" then strReplace c t ph else c) cmd

/-- Loop step 7: the documentation form of the curl command — server URL
swapped for the doc URL, seen tokens redacted, and the captured id
rewritten back to the placeholder kind used by this test (lines 274-286). -/
def renderDoc (serverURL docURL : String) (st : RunState) (placeholder_type : Option String)
    (curl_cmd : String) : String :=
  let c1 := strReplace curl_cmd serverURL docURL
  let c2 := redactAll c1 st.allAccessTokens "$ACCESS_TOKEN"
  let c3 := redactAll c2 st.allRefreshTokens "$REFRESH_TOKEN"
  if optJsonTruthy st.capturedRecordId then
    match placeholder_type with
    | some ph => strReplace c3 (jstr (st.capturedRecordId.getD Json.null)) ph
    | none => c3
  else c3

/-- Loop step 8: only tests with a non-empty stripped name contribute a
Markdown block (lines 288-294). -/
def appendMarkdown (st : RunState) (test : TestCase) (curl_cmd_doc status body : String) :
    RunState :=
  let test_name := strTrim (test.name.getD "")
  if test_name != "" then
    let block := format_markdown_result curl_cmd_doc status body (some test_name)
        test.details test.notes
    { st with resultsMd := st.resultsMd ++ block }
  else st

/-- One iteration of the `run_all_tests` loop over one test, with the
transport outcome of its request supplied by the oracle. -/
def step (serverURL docURL pfx : String) (tr : TransportResult) (st : RunState)
    (test : TestCase) : RunState :=
  let test1 := (substRecordId st test).1
  let placeholder_type := (substRecordId st test).2
  let test3 := substRefreshToken st (substAccessToken st test1)
  let rt := run_test serverURL pfx test3 tr
  let st2 := captureRecordId (captureTokens st rt.status rt.response_obj test3)
      rt.status rt.response_obj test3
  let curl_cmd_doc := renderDoc serverURL docURL st2 placeholder_type rt.curl_cmd
  let st3 := appendMarkdown st2 test3 curl_cmd_doc rt.status rt.body_str
  { st3 with
    allOk := if !(startsWith2 rt.status) then false else st3.allOk,
    trace := st3.trace ++ [⟨rt.req, rt.status, rt.body_str, curl_cmd_doc, placeholder_type⟩] }

/-- The `for test in tests["tests"]` loop; `i` indexes the oracle. -/
def runLoop (oracle : Nat → TransportResult) (serverURL docURL pfx : String) :
    Nat → RunState → List TestCase → RunState
  | _, st, [] => st
  | i, st, t :: rest =>
    runLoop oracle serverURL docURL pfx (i + 1) (step serverURL docURL pfx (oracle i) st t) rest

/-- The locals of `run_all_tests` before the loop: a truthy seed token
starts both the current token and the redaction history. -/
def initState (access_token : Option String) : RunState :=
  { accessToken := access_token
    refreshToken := none
    capturedRecordId := none
    allAccessTokens :=
      match access_token with
      | some s => if s != "" then [s] else []
      | none => []
    allRefreshTokens := []
    allOk := true
    resultsMd := []
    trace := [] }

/-- What `run_all_tests` returns (file writing is outside the engine):
the verdict, the joined Markdown transcript, and — for the theorems —
the final loop state. -/
structure RunOutput where
  verdict : String
  markdown : String
  final : RunState

/-- `run_all_tests(tests, outdir, access_token, outfilename)` with the
transport oracle made explicit. -/
def run_all_tests (oracle : Nat → TransportResult) (suite : TestSuite)
    (access_token : Option String) : RunOutput :=
  let fin := runLoop oracle suite.serverURL suite.docURL (suite.pfx.getD "") 0
      (initState access_token) suite.tests
  ⟨if fin.allOk then "success" else "failure", String.intercalate "\n" fin.resultsMd, fin⟩

/-- The per-test body of `main`'s pre-flight `$ACCESS_TOKEN` resolution
(lines 354-359): a header that mentions the placeholder gets the
bootstrap token substituted, or the empty string when none is held. -/
def resolveOneHeader (access_token : Option String) (t : TestCase) : TestCase :=
  match t.headers with
  | some hs =>
    match List.lookup "Authorization" hs with
    | some auth =>
      if strContains auth "$ACCESS_TOKEN" then
        { t with headers := some (updateAssoc hs "Authorization"
            (strReplace auth "$ACCESS_TOKEN"
              (match access_token with
               | some s => if s != "" then s else ""
               | none => ""))) }
      else t
    | none => t
  | none => t

/-- `main`'s pre-flight resolution applied to every test of a suite. -/
def resolveAccessTokenHeaders (access_token : Option String) (tests : List TestCase) :
    List TestCase :=
  tests.map (resolveOneHeader access_token)

/-- Status/body observations of the first `ts.length` oracle outcomes
from index `i` on — the shape the trace of a run must take. -/
def obsList (oracle : Nat → TransportResult) : Nat → List TestCase → List (String × String)
  | _, [] => []
  | i, _ :: rest => (statusOf (oracle i), bodyOf (oracle i)) :: obsList oracle (i + 1) rest

/-- Projection of a trace entry to its status/body observation. -/
def obsFn (r : TestResult) : String × String := (r.status, r.body)

/-- The transport outcome is a response with a status code in the range
the HTTP transport can actually deliver, or an exception. -/
def okRangeB : TransportResult → Bool
  | .ok resp => decide (100 ≤ resp.status_code ∧ resp.status_code ≤ 599)
  | .exc _ => true

/-- The transport outcome is a 2xx-class response. -/
def is2xxB : TransportResult → Bool
  | .ok resp => decide (200 ≤ resp.status_code ∧ resp.status_code < 300)
  | .exc _ => false

/-! ## Concrete suites, oracles and runs used to evaluate the claims -/

/-- A named login test (`POST /auth:login`). -/
def loginTest : TestCase :=
  { name := some "Login", cmd := some "POST", endpoint := some "/auth:login" }

/-- A named test whose Authorization header carries the token placeholder. -/
def bearerTest : TestCase :=
  { name := some "Me", endpoint := some "/me",
    headers := some [("Authorization", "Bearer $ACCESS_TOKEN")] }

/-- A suite consisting only of the login test. -/
def suiteLogin1 : TestSuite :=
  { serverURL := "http://srv", docURL := "http://doc", tests := [loginTest] }

/-- Login followed by a bearer-authorized call. -/
def suiteLogin2 : TestSuite :=
  { serverURL := "http://srv", docURL := "http://doc", tests := [loginTest, bearerTest] }

/-- The login succeeds with token `T1`; everything else returns 200 with a
non-JSON body. -/
def oracleLogin : Nat → TransportResult := fun i =>
  match i with
  | 0 => .ok ⟨200, "OK", "", some (Json.obj [("access_token", Json.str "T1")])⟩
  | _ => .ok ⟨200, "OK", "done", none⟩

/-- The one-test login run. -/
def runLogin1 : RunOutput := run_all_tests oracleLogin suiteLogin1 none

/-- The login-then-authorized-call run, with no seed token. -/
def runLogin2 : RunOutput := run_all_tests oracleLogin suiteLogin2 none

/-- A named `:create` test, a test using `$ULID`, and a test whose endpoint
mentions the raw id literally. -/
def createTest : TestCase :=
  { name := some "Create", cmd := some "POST", endpoint := some "/widgets:create" }

/-- Fetches the created record through the `$ULID` placeholder. -/
def ulidTest : TestCase := { name := some "Get", endpoint := some "/widgets/$ULID" }

/-- Mentions the raw record id literally, with no placeholder. -/
def probeTest : TestCase := { name := some "Probe", endpoint := some "/probe/rec42" }

/-- Create-capture-reuse suite. -/
def suiteRecord3 : TestSuite :=
  { serverURL := "http://srv", docURL := "http://doc", tests := [createTest, ulidTest, probeTest] }

/-- The create returns 201 with `data.id = rec42`; later calls return 200. -/
def oracleRecord : Nat → TransportResult := fun i =>
  match i with
  | 0 => .ok ⟨201, "Created", "", some (Json.obj [("data", Json.obj [("id", Json.str "rec42")])])⟩
  | _ => .ok ⟨200, "OK", "ok", none⟩

/-- The create-capture-reuse run. -/
def runRecord3 : RunOutput := run_all_tests oracleRecord suiteRecord3 none

/-- A test whose endpoint holds `$NEXT_CURSOR` while its data holds `$ULID`. -/
def testBothFields : TestCase :=
  { endpoint := some "/x/$NEXT_CURSOR", data := some "\x7b\"k\": \"$ULID\"\x7d" }

/-- A test whose endpoint holds both placeholder substrings. -/
def testEndpointBoth : TestCase := { endpoint := some "/a/$NEXT_CURSOR/$ULID" }

/-- A test whose endpoint holds only `$ULID`. -/
def testEndpointUlid : TestCase := { endpoint := some "/a/$ULID" }

/-- Two unnamed plain tests. -/
def plainA : TestCase := { endpoint := some "/a" }

/-- Second plain test. -/
def plainB : TestCase := { endpoint := some "/b" }

/-- A minimal two-test suite. -/
def suitePlain2 : TestSuite :=
  { serverURL := "http://s", docURL := "http://d", tests := [plainA, plainB] }

/-- First request succeeds with 200, the second returns 404. -/
def oracleMixed : Nat → TransportResult := fun i =>
  match i with
  | 0 => .ok ⟨200, "OK", "ok", none⟩
  | _ => .ok ⟨404, "Not Found", "no", none⟩

/-- The first request raises a transport timeout; later ones succeed. -/
def oracleTimeout : Nat → TransportResult := fun i =>
  match i with
  | 0 => .exc "timed out"
  | _ => .ok ⟨200, "OK", "ok", none⟩

/-- A loop state that already holds a captured record id `X`. -/
def stCaptured : RunState := { initState none with capturedRecordId := some (Json.str "X") }

/-- A later `:create` test. -/
def createTest2 : TestCase := { endpoint := some "/w:create" }

/-- Every request is a 200 `:create` response offering a different id `Y`. -/
def oracleCreateY : Nat → TransportResult := fun _ =>
  .ok ⟨200, "OK", "", some (Json.obj [("id", Json.str "Y")])⟩

/-! ## Basic facts about the embedded primitives -/

theorem str_data_append (a b : String) : (a ++ b).data = a.data ++ b.data := by
  cases a
  cases b
  rfl

theorem natToDigitsAux_ne_nil (fuel n : Nat) : natToDigitsAux (fuel + 1) n ≠ [] := by
  unfold natToDigitsAux
  split
  · simp
  · simp

set_option maxRecDepth 4000 in
theorem headIs2_digits (n : Nat) (h1 : 100 ≤ n) (h2 : n ≤ 599) :
    headIs2 (natToDigitsAux (n + 1) n) = decide (200 ≤ n ∧ n < 300) := by
  have key : ∀ m, m < 600 → 100 ≤ m →
      headIs2 (natToDigitsAux (m + 1) m) = decide (200 ≤ m ∧ m < 300) := by decide
  exact key n (by omega) h1

theorem headIs2_append (l1 l2 : List Char) (h : l1 ≠ []) :
    headIs2 (l1 ++ l2) = headIs2 l1 := by
  cases l1 with
  | nil => exact absurd rfl h
  | cons c cs => rfl

/-- Under the status-code range the HTTP transport can deliver, the
`startswith("2")` test on the status line of a transport outcome is the
2xx-class test on its status code. -/
theorem s2_statusOf (tr : TransportResult) (h : okRangeB tr = true) :
    startsWith2 (statusOf tr) = is2xxB tr := by
  cases tr with
  | exc e => rfl
  | ok resp =>
    obtain ⟨c, rs, tx, jb⟩ := resp
    have hb : 100 ≤ c ∧ c ≤ 599 := of_decide_eq_true h
    show startsWith2 (natToStr c ++ " " ++ rs) = decide (200 ≤ c ∧ c < 300)
    unfold startsWith2
    rw [str_data_append, str_data_append]
    rw [List.append_assoc]
    show headIs2 (natToDigitsAux (c + 1) c ++ (" ".data ++ rs.data)) = decide (200 ≤ c ∧ c < 300)
    rw [headIs2_append _ _ (natToDigitsAux_ne_nil c c)]
    exact headIs2_digits c hb.1 hb.2

/-! ## Facts about `run_test` -/

theorem run_test_status (b p : String) (t : TestCase) (tr : TransportResult) :
    (run_test b p t tr).status = statusOf tr := by
  cases tr with
  | ok resp =>
    obtain ⟨c, rs, tx, jb⟩ := resp
    cases jb <;> rfl
  | exc e => rfl

theorem run_test_body (b p : String) (t : TestCase) (tr : TransportResult) :
    (run_test b p t tr).body_str = bodyOf tr := by
  cases tr with
  | ok resp =>
    obtain ⟨c, rs, tx, jb⟩ := resp
    cases jb <;> rfl
  | exc e => rfl

/-! ## Preservation facts about the loop-state updates -/

theorem captureAccess_trace (st : RunState) (r : Option Json) :
    (captureAccess st r).trace = st.trace := by
  unfold captureAccess
  split
  · split <;> rfl
  · rfl

theorem captureAccess_allOk (st : RunState) (r : Option Json) :
    (captureAccess st r).allOk = st.allOk := by
  unfold captureAccess
  split
  · split <;> rfl
  · rfl

theorem captureAccess_captured (st : RunState) (r : Option Json) :
    (captureAccess st r).capturedRecordId = st.capturedRecordId := by
  unfold captureAccess
  split
  · split <;> rfl
  · rfl

theorem captureRefresh_trace (st : RunState) (r : Option Json) :
    (captureRefresh st r).trace = st.trace := by
  unfold captureRefresh
  split
  · split <;> rfl
  · rfl

theorem captureRefresh_allOk (st : RunState) (r : Option Json) :
    (captureRefresh st r).allOk = st.allOk := by
  unfold captureRefresh
  split
  · split <;> rfl
  · rfl

theorem captureRefresh_captured (st : RunState) (r : Option Json) :
    (captureRefresh st r).capturedRecordId = st.capturedRecordId := by
  unfold captureRefresh
  split
  · split <;> rfl
  · rfl

theorem captureTokens_trace (st : RunState) (status : String) (r : Option Json)
    (t : TestCase) : (captureTokens st status r t).trace = st.trace := by
  unfold captureTokens
  split
  · split
    · rw [captureRefresh_trace, captureAccess_trace]
    · rfl
  · rfl

theorem captureTokens_allOk (st : RunState) (status : String) (r : Option Json)
    (t : TestCase) : (captureTokens st status r t).allOk = st.allOk := by
  unfold captureTokens
  split
  · split
    · rw [captureRefresh_allOk, captureAccess_allOk]
    · rfl
  · rfl

theorem captureTokens_captured (st : RunState) (status : String) (r : Option Json)
    (t : TestCase) : (captureTokens st status r t).capturedRecordId = st.capturedRecordId := by
  unfold captureTokens
  split
  · split
    · rw [captureRefresh_captured, captureAccess_captured]
    · rfl
  · rfl

theorem captureRecordId_trace (st : RunState) (status : String) (r : Option Json)
    (t : TestCase) : (captureRecordId st status r t).trace = st.trace := by
  unfold captureRecordId
  split
  · split
    · split
      · split <;> rfl
      · rfl
    · rfl
  · rfl

theorem captureRecordId_allOk (st : RunState) (status : String) (r : Option Json)
    (t : TestCase) : (captureRecordId st status r t).allOk = st.allOk := by
  unfold captureRecordId
  split
  · split
    · split
      · split <;> rfl
      · rfl
    · rfl
  · rfl

/-- Once the captured id is truthy, the capture step is a no-op on it. -/
theorem captureRecordId_captured_truthy (st : RunState) (status : String) (r : Option Json)
    (t : TestCase) (h : optJsonTruthy st.capturedRecordId = true) :
    (captureRecordId st status r t).capturedRecordId = st.capturedRecordId := by
  unfold captureRecordId
  rw [h]
  simp

theorem appendMarkdown_trace (st : RunState) (t : TestCase) (c s b : String) :
    (appendMarkdown st t c s b).trace = st.trace := by
  simp only [appendMarkdown]
  split <;> rfl

theorem appendMarkdown_allOk (st : RunState) (t : TestCase) (c s b : String) :
    (appendMarkdown st t c s b).allOk = st.allOk := by
  simp only [appendMarkdown]
  split <;> rfl

theorem appendMarkdown_captured (st : RunState) (t : TestCase) (c s b : String) :
    (appendMarkdown st t c s b).capturedRecordId = st.capturedRecordId := by
  simp only [appendMarkdown]
  split <;> rfl

/-! ## Facts about one loop iteration -/

theorem step_obs (sv dv pf : String) (tr : TransportResult) (st : RunState) (t : TestCase) :
    (step sv dv pf tr st t).trace.map obsFn
      = st.trace.map obsFn ++ [(statusOf tr, bodyOf tr)] := by
  simp only [step]
  rw [appendMarkdown_trace, captureRecordId_trace, captureTokens_trace]
  rw [List.map_append]
  simp only [List.map_cons, List.map_nil, obsFn]
  rw [run_test_status, run_test_body]

theorem step_allOk (sv dv pf : String) (tr : TransportResult) (st : RunState) (t : TestCase) :
    (step sv dv pf tr st t).allOk = (st.allOk && startsWith2 (statusOf tr)) := by
  simp only [step]
  rw [appendMarkdown_allOk, captureRecordId_allOk, captureTokens_allOk, run_test_status]
  cases hs : startsWith2 (statusOf tr) <;> cases st.allOk <;> simp

theorem step_captured (sv dv pf : String) (tr : TransportResult) (st : RunState) (t : TestCase)
    (h : optJsonTruthy st.capturedRecordId = true) :
    (step sv dv pf tr st t).capturedRecordId = st.capturedRecordId := by
  simp only [step]
  rw [appendMarkdown_captured]
  rw [captureRecordId_captured_truthy _ _ _ _ (by rw [captureTokens_captured]; exact h)]
  rw [captureTokens_captured]

/-! ## Facts about the whole loop -/

theorem obsList_length (o : Nat → TransportResult) :
    ∀ (ts : List TestCase) (i : Nat), (obsList o i ts).length = ts.length := by
  intro ts
  induction ts with
  | nil => intro i; rfl
  | cons t rest ih => intro i; simp [obsList, ih]

theorem obsList_get (o : Nat → TransportResult) :
    ∀ (ts : List TestCase) (i j : Nat), j < ts.length →
    (obsList o i ts).get? j = some (statusOf (o (i + j)), bodyOf (o (i + j))) := by
  intro ts
  induction ts with
  | nil => intro i j h; simp at h
  | cons t rest ih =>
    intro i j h
    cases j with
    | zero => simp [obsList]
    | succ j =>
      have hj : j < rest.length := by simpa using h
      have := ih (i + 1) j hj
      have harith : i + 1 + j = i + (j + 1) := by omega
      rw [harith] at this
      simpa [obsList] using this

theorem runLoop_obs (o : Nat → TransportResult) (sv dv pf : String) :
    ∀ (ts : List TestCase) (i : Nat) (st : RunState),
    (runLoop o sv dv pf i st ts).trace.map obsFn
      = st.trace.map obsFn ++ obsList o i ts := by
  intro ts
  induction ts with
  | nil => intro i st; simp [runLoop, obsList]
  | cons t rest ih =>
    intro i st
    have hred : runLoop o sv dv pf i st (t :: rest)
        = runLoop o sv dv pf (i + 1) (step sv dv pf (o i) st t) rest := rfl
    rw [hred, ih, step_obs]
    simp [obsList]

theorem runLoop_allOk (o : Nat → TransportResult) (sv dv pf : String) :
    ∀ (ts : List TestCase) (i : Nat) (st : RunState),
    (runLoop o sv dv pf i st ts).allOk
      = (st.allOk && (obsList o i ts).all (fun x => startsWith2 x.1)) := by
  intro ts
  induction ts with
  | nil => intro i st; simp [runLoop, obsList]
  | cons t rest ih =>
    intro i st
    have hred : runLoop o sv dv pf i st (t :: rest)
        = runLoop o sv dv pf (i + 1) (step sv dv pf (o i) st t) rest := rfl
    rw [hred, ih, step_allOk]
    simp [obsList, Bool.and_assoc]

theorem runLoop_captured (o : Nat → TransportResult) (sv dv pf : String) :
    ∀ (ts : List TestCase) (i : Nat) (st : RunState),
    optJsonTruthy st.capturedRecordId = true →
    (runLoop o sv dv pf i st ts).capturedRecordId = st.capturedRecordId := by
  intro ts
  induction ts with
  | nil => intro i st _; rfl
  | cons t rest ih =>
    intro i st h
    have hred : runLoop o sv dv pf i st (t :: rest)
        = runLoop o sv dv pf (i + 1) (step sv dv pf (o i) st t) rest := rfl
    rw [hred]
    have hpres := step_captured sv dv pf (o i) st t h
    have htr : optJsonTruthy (step sv dv pf (o i) st t).capturedRecordId = true := by
      rw [hpres]; exact h
    rw [ih (i + 1) _ htr, hpres]

/-- Every test of a suite issues exactly one request; the trace has one
entry per test regardless of outcomes. -/
theorem initState_trace (seed : Option String) : (initState seed).trace = [] := rfl

theorem trace_length_eq (o : Nat → TransportResult) (suite : TestSuite) (seed : Option String) :
    (run_all_tests o suite seed).final.trace.length = suite.tests.length := by
  have h := runLoop_obs o suite.serverURL suite.docURL (suite.pfx.getD "") suite.tests 0
      (initState seed)
  rw [initState_trace] at h
  have h2 := congrArg List.length h
  simp only [List.length_map, List.map_nil, List.nil_append, obsList_length] at h2
  simpa [run_all_tests] using h2

/-! ## Bridging lemmas for the suite verdict -/

theorem verdict_eq_success_iff (b : Bool) :
    ((if b then "success" else "failure") = "success") ↔ (b = true) := by
  cases b <;> decide

theorem obsList_all_iff (o : Nat → TransportResult) (ts : List TestCase) :
    ((obsList o 0 ts).all (fun x => startsWith2 x.1) = true
      ↔ ∀ j, j < ts.length → startsWith2 (statusOf (o j)) = true) := by
  rw [List.all_eq_true]
  constructor
  · intro h j hj
    have hg := obsList_get o ts 0 j hj
    have hmem := List.get?_mem hg
    have hx := h _ hmem
    simpa using hx
  · intro h x hx
    obtain ⟨j, hj⟩ := List.mem_iff_get?.mp hx
    obtain ⟨hlt, _⟩ := List.get?_eq_some.mp hj
    have hjlen : j < ts.length := by
      simpa [obsList_length] using hlt
    have hg := obsList_get o ts 0 j hjlen
    rw [hj] at hg
    have hx1 : x = (statusOf (o (0 + j)), bodyOf (o (0 + j))) := by
      injection hg
    rw [hx1]
    simpa using h j hjlen

theorem lookup_updateAssoc (hs : List (String × String)) (k v w : String)
    (h : List.lookup k hs = some w) :
    List.lookup k (updateAssoc hs k v) = some v := by
  induction hs with
  | nil => simp at h
  | cons kv rest ih =>
    obtain ⟨a, b⟩ := kv
    by_cases hak : a = k
    · subst hak
      have hred : updateAssoc ((a, b) :: rest) a v = (a, v) :: updateAssoc rest a v := by
        simp [updateAssoc]
      rw [hred, List.lookup_cons]
      simp
    · have hka : (k == a) = false := beq_false_of_ne (fun hx => hak hx.symm)
      have hred : updateAssoc ((a, b) :: rest) k v = (a, b) :: updateAssoc rest k v := by
        show (if (a == k) = true then (a, v) else (a, b)) :: updateAssoc rest k v
            = (a, b) :: updateAssoc rest k v
        rw [beq_false_of_ne hak]
        simp
      rw [List.lookup_cons, hka] at h
      rw [hred, List.lookup_cons, hka]
      exact ih h

/-! ## The claims -/

/-- C1: for every suite, the overall verdict is `"success"` iff every
executed test returned a 2xx-class status (any non-2xx response or
transport error makes it `"failure"`), and execution still reaches all
tests: the trace has one entry per declared test. -/
theorem suite_verdict_success_iff_all_2xx (o : Nat → TransportResult) (suite : TestSuite)
    (seed : Option String)
    (hr : ∀ j, j < suite.tests.length → okRangeB (o j) = true) :
    (run_all_tests o suite seed).final.trace.length = suite.tests.length ∧
    ((run_all_tests o suite seed).verdict = "success" ↔
      ∀ j, j < suite.tests.length → is2xxB (o j) = true) := by
  refine ⟨trace_length_eq o suite seed, ?_⟩
  have hall := runLoop_allOk o suite.serverURL suite.docURL (suite.pfx.getD "") suite.tests 0
      (initState seed)
  have hinit : (initState seed).allOk = true := rfl
  rw [hinit, Bool.true_and] at hall
  have hv : (run_all_tests o suite seed).verdict
      = (if (runLoop o suite.serverURL suite.docURL (suite.pfx.getD "") 0 (initState seed)
          suite.tests).allOk then "success" else "failure") := rfl
  rw [hv, verdict_eq_success_iff, hall, obsList_all_iff]
  constructor
  · intro h j hj
    rw [← s2_statusOf (o j) (hr j hj)]
    exact h j hj
  · intro h j hj
    rw [s2_statusOf (o j) (hr j hj)]
    exact h j hj

/-- Witness for C1: a concrete two-test run (one 200, one 404). -/
theorem suite_verdict_witness :
    (run_all_tests oracleMixed suitePlain2 none).final.trace.length = suitePlain2.tests.length ∧
    ((run_all_tests oracleMixed suitePlain2 none).verdict = "success" ↔
      ∀ j, j < suitePlain2.tests.length → is2xxB (oracleMixed j) = true) :=
  suite_verdict_success_iff_all_2xx oracleMixed suitePlain2 none (by decide)

/-- C3: the captured record id is set at most once per suite run: from any
loop state already holding a truthy captured id `v`, executing any further
tests (in particular later 2xx `:create`/`:list` responses) leaves it
equal to `v` for the remainder of the suite. -/
theorem captured_record_id_set_at_most_once (o : Nat → TransportResult) (sv dv pf : String)
    (i : Nat) (st : RunState) (ts : List TestCase) (v : Json)
    (hc : st.capturedRecordId = some v) (hv : jsonTruthy v = true) :
    (runLoop o sv dv pf i st ts).capturedRecordId = some v := by
  have h : optJsonTruthy st.capturedRecordId = true := by
    rw [hc]
    exact hv
  rw [runLoop_captured o sv dv pf ts i st h, hc]

/-- Witness for C3: a state holding id `X` runs a 2xx `:create` test whose
response offers id `Y`; the captured id stays `X`. -/
theorem captured_record_id_witness :
    (runLoop oracleCreateY "http://s" "http://d" "" 0 stCaptured [createTest2]).capturedRecordId
      = some (Json.str "X") :=
  captured_record_id_set_at_most_once oracleCreateY "http://s" "http://d" "" 0 stCaptured
    [createTest2] (Json.str "X") rfl rfl

/-- C8: a transport failure is recorded as the test's result — status
sentinel `"ERROR"` with the stringified failure as body — never escapes
the executor, flips the suite verdict to `"failure"`, and does not stop
the remaining tests: the trace still has one entry per declared test. -/
theorem transport_error_recorded_and_run_continues (o : Nat → TransportResult)
    (suite : TestSuite) (seed : Option String) (i : Nat) (e : String)
    (hi : i < suite.tests.length) (he : o i = TransportResult.exc e) :
    (run_all_tests o suite seed).final.trace.length = suite.tests.length ∧
    ((run_all_tests o suite seed).final.trace.map obsFn).get? i = some ("ERROR", e) ∧
    (run_all_tests o suite seed).verdict = "failure" := by
  have hobs := runLoop_obs o suite.serverURL suite.docURL (suite.pfx.getD "") suite.tests 0
      (initState seed)
  rw [initState_trace] at hobs
  simp only [List.map_nil, List.nil_append] at hobs
  have hmap : (run_all_tests o suite seed).final.trace.map obsFn = obsList o 0 suite.tests := by
    simpa [run_all_tests] using hobs
  refine ⟨trace_length_eq o suite seed, ?_, ?_⟩
  · rw [hmap, obsList_get o suite.tests 0 i hi]
    simp [he, statusOf, bodyOf]
  · have hget := obsList_get o suite.tests 0 i hi
    have hmem := List.get?_mem hget
    have hfail : (obsList o 0 suite.tests).all (fun x => startsWith2 x.1) = false := by
      rw [List.all_eq_false]
      refine ⟨_, hmem, ?_⟩
      simp only [Nat.zero_add, he, statusOf]
      decide
    have hall := runLoop_allOk o suite.serverURL suite.docURL (suite.pfx.getD "") suite.tests 0
        (initState seed)
    have hinit : (initState seed).allOk = true := rfl
    rw [hinit, Bool.true_and, hfail] at hall
    have hv : (run_all_tests o suite seed).verdict
        = (if (runLoop o suite.serverURL suite.docURL (suite.pfx.getD "") 0 (initState seed)
            suite.tests).allOk then "success" else "failure") := rfl
    rw [hv, hall]
    decide

/-- Witness for C8: the first request of a two-test run times out. -/
theorem transport_error_witness :
    (run_all_tests oracleTimeout suitePlain2 none).final.trace.length
      = suitePlain2.tests.length ∧
    ((run_all_tests oracleTimeout suitePlain2 none).final.trace.map obsFn).get? 0
      = some ("ERROR", "timed out") ∧
    (run_all_tests oracleTimeout suitePlain2 none).verdict = "failure" :=
  transport_error_recorded_and_run_continues oracleTimeout suitePlain2 none 0 "timed out"
    (by decide) rfl

/-- C7: a test whose Authorization header mentions `$ACCESS_TOKEN` has the
placeholder replaced — by `main`'s pre-flight pass with the bootstrap token,
or with the empty string when no token is available, and by the loop with
the current token — and the run still issues one request per test rather
than aborting. -/
theorem access_token_placeholder_resolution
    (hs : List (String × String)) (auth : String) (t : TestCase)
    (st : RunState) (s : String)
    (o : Nat → TransportResult) (suite : TestSuite) (seed : Option String)
    (hh : t.headers = some hs) (ha : List.lookup "Authorization" hs = some auth)
    (hc : strContains auth "$ACCESS_TOKEN" = true)
    (hst : st.accessToken = some s) (hs0 : s ≠ "") :
    List.lookup "Authorization" ((resolveOneHeader none t).headers.getD [])
      = some (strReplace auth "$ACCESS_TOKEN" "") ∧
    List.lookup "Authorization" ((resolveOneHeader (some s) t).headers.getD [])
      = some (strReplace auth "$ACCESS_TOKEN" s) ∧
    List.lookup "Authorization" ((substAccessToken st t).headers.getD [])
      = some (strReplace auth "$ACCESS_TOKEN" s) ∧
    (run_all_tests o suite seed).final.trace.length = suite.tests.length := by
  refine ⟨?_, ?_, ?_, trace_length_eq o suite seed⟩
  · simp only [resolveOneHeader, hh, ha, hc, if_true, Option.getD]
    exact lookup_updateAssoc hs "Authorization" _ auth ha
  · simp only [resolveOneHeader, hh, ha, hc, if_true, Option.getD]
    have : (s != "") = true := by simp [hs0]
    rw [this]
    simp only [if_true]
    exact lookup_updateAssoc hs "Authorization" _ auth ha
  · have htr : tokTruthy (some s) = true := by
      simp [tokTruthy, hs0]
    simp only [substAccessToken, hst, htr, if_true, hh, ha, Option.getD]
    exact lookup_updateAssoc hs "Authorization" _ auth ha

/-- Witness for C7: the bearer-header test resolved with no token, with
token `TOK`, and by the loop from a state holding `TOK`; the two-test run
issues both requests. -/
theorem access_token_resolution_witness :
    List.lookup "Authorization" ((resolveOneHeader none bearerTest).headers.getD [])
      = some (strReplace "Bearer $ACCESS_TOKEN" "$ACCESS_TOKEN" "") ∧
    List.lookup "Authorization" ((resolveOneHeader (some "TOK") bearerTest).headers.getD [])
      = some (strReplace "Bearer $ACCESS_TOKEN" "$ACCESS_TOKEN" "TOK") ∧
    List.lookup "Authorization"
        ((substAccessToken (initState (some "TOK")) bearerTest).headers.getD [])
      = some (strReplace "Bearer $ACCESS_TOKEN" "$ACCESS_TOKEN" "TOK") ∧
    (run_all_tests oracleMixed suitePlain2 none).final.trace.length
      = suitePlain2.tests.length :=
  access_token_placeholder_resolution [("Authorization", "Bearer $ACCESS_TOKEN")]
    "Bearer $ACCESS_TOKEN" bearerTest (initState (some "TOK")) "TOK"
    oracleMixed suitePlain2 none rfl rfl (by decide) rfl (by decide)

/-- C2 counterexample: the claim that the rendered transcript never
contains the literal value of a token assigned during the run is false —
in the one-test login run the token `T1` is assigned to the access token,
yet the transcript contains `T1` literally (inside the rendered response
body of the login test, which is emitted without redaction). -/
theorem token_literal_in_transcript :
    runLogin1.final.accessToken = some "T1" ∧
    strContains runLogin1.markdown "T1" = true := by
  refine ⟨?_, ?_⟩ <;> decide

/-- C2 amended: redaction applies to the rendered curl commands only.
In the login-then-authorized-call run, the second test's rendered command
shows `$ACCESS_TOKEN` and not the token `T1`, but the response body of
the login test is rendered verbatim, so the transcript still contains
`T1`. -/
theorem token_redaction_only_in_commands :
    (runLogin2.final.trace.map (fun r => strContains r.curlDoc "T1")).get? 1 = some false ∧
    (runLogin2.final.trace.map (fun r => strContains r.curlDoc "$ACCESS_TOKEN")).get? 1
      = some true ∧
    (runLogin2.final.trace.map (fun r => strContains r.body "T1")).get? 0 = some true ∧
    strContains runLogin2.markdown "T1" = true := by
  refine ⟨?_, ?_, ?_, ?_⟩ <;> decide

/-- C4: in the seedless login-then-authorized-call run, the Authorization
header actually sent with the second request is `Bearer T1`, while that
test's rendered transcript command shows `Bearer $ACCESS_TOKEN` (and not
`T1`). -/
theorem login_token_used_but_not_rendered :
    (runLogin2.final.trace.map (fun r => List.lookup "Authorization" r.req.headers)).get? 1
      = some (some "Bearer T1") ∧
    (runLogin2.final.trace.map (fun r => strContains r.curlDoc "Bearer $ACCESS_TOKEN")).get? 1
      = some true ∧
    (runLogin2.final.trace.map (fun r => strContains r.curlDoc "T1")).get? 1 = some false ∧
    strContains runLogin2.markdown "Bearer $ACCESS_TOKEN" = true := by
  refine ⟨?_, ?_, ?_, ?_⟩ <;> decide

/-- C5: record-id extraction from a `users` array with no higher-priority
id shape captures the id of the second element when at least two exist,
and the id of the only element otherwise. -/
theorem users_array_selection (a b : String) :
    extract_record_id_from_response (some (Json.obj [("users",
        Json.arr [Json.obj [("id", Json.str a)], Json.obj [("id", Json.str b)]])]))
      = some (Json.str b) ∧
    extract_record_id_from_response (some (Json.obj [("users",
        Json.arr [Json.obj [("id", Json.str a)]])]))
      = some (Json.str a) :=
  ⟨rfl, rfl⟩

/-- C6 counterexample: the claim that at most one of the two record-id
placeholder kinds is substituted and reported per test is false — a test
whose endpoint holds `$NEXT_CURSOR` and whose data holds `$ULID` has both
substituted, and the reported kind is `$ULID`, not the first-checked
`$NEXT_CURSOR`. -/
theorem endpoint_and_data_both_substituted :
    (replace_record_in_test testBothFields "REC").1.endpoint = some "/x/REC" ∧
    (replace_record_in_test testBothFields "REC").1.data
      = some "\x7b\"k\": \"REC\"\x7d" ∧
    (replace_record_in_test testBothFields "REC").2 = some "$ULID" := by
  refine ⟨?_, ?_, ?_⟩ <;> decide

/-- C6 amended: within each field separately, `$NEXT_CURSOR` is checked
before `$ULID` and only the first match is substituted in that field — an
endpoint holding both substrings has only `$NEXT_CURSOR` substituted and
reported; but endpoint and data are scanned independently, so a test can
have both kinds substituted (one per field), the data's kind being the
one reported. -/
theorem placeholder_precedence_per_field :
    (replace_record_in_test testEndpointBoth "R").1.endpoint = some "/a/R/$ULID" ∧
    (replace_record_in_test testEndpointBoth "R").2 = some "$NEXT_CURSOR" ∧
    (replace_record_in_test testEndpointUlid "R").1.endpoint = some "/a/R" ∧
    (replace_record_in_test testEndpointUlid "R").2 = some "$ULID" := by
  refine ⟨?_, ?_, ?_, ?_⟩ <;> decide

/-- C9: record-id redaction is per-test.  In the create-capture-reuse run,
the `$ULID` test is executed against the raw id (`/widgets/rec42`) while
its rendered command shows the placeholder and not the id; but the test
that produced the id renders its response body with the raw id, and a
test that mentions the id without having had a substitution renders it
unredacted. -/
theorem record_id_redaction_per_test :
    (runRecord3.final.trace.map (fun r => r.placeholderUsed)).get? 0 = some none ∧
    (runRecord3.final.trace.map (fun r => r.placeholderUsed)).get? 1 = some (some "$ULID") ∧
    (runRecord3.final.trace.map (fun r => r.req.url)).get? 1 = some "http://srv/widgets/rec42" ∧
    (runRecord3.final.trace.map (fun r => strContains r.curlDoc "rec42")).get? 1 = some false ∧
    (runRecord3.final.trace.map (fun r => strContains r.curlDoc "$ULID")).get? 1 = some true ∧
    (runRecord3.final.trace.map (fun r => strContains r.body "rec42")).get? 0 = some true ∧
    (runRecord3.final.trace.map (fun r => strContains r.curlDoc "rec42")).get? 2 = some true := by
  refine ⟨?_, ?_, ?_, ?_, ?_, ?_, ?_⟩ <;> decide

/-- C10: when the `users` array has at least two elements but the selected
second element is not an object with an `id` field, the `users` array
contributes no id — there is no fallback to the first element — and
extraction proceeds to the later array keys and then to the
`_id`/`ulid`/`uuid` patterns (also under a dict-valued `data`). -/
theorem users_selected_element_without_id_no_fallback :
    extract_record_id_from_response (some (Json.obj [("users",
        Json.arr [Json.obj [("id", Json.str "A")], Json.str "junk"])])) = none ∧
    extract_record_id_from_response (some (Json.obj
        [("users", Json.arr [Json.obj [("id", Json.str "A")], Json.obj []]),
         ("records", Json.arr [Json.obj [("id", Json.str "R")]])])) = some (Json.str "R") ∧
    extract_record_id_from_response (some (Json.obj
        [("users", Json.arr [Json.obj [("id", Json.str "A")], Json.obj []]),
         ("data", Json.arr [Json.obj [("id", Json.str "C")]])])) = some (Json.str "C") ∧
    extract_record_id_from_response (some (Json.obj
        [("users", Json.arr [Json.obj [("id", Json.str "A")], Json.num 7]),
         ("ulid", Json.str "U")])) = some (Json.str "U") ∧
    extract_record_id_from_response (some (Json.obj
        [("users", Json.arr [Json.obj [("id", Json.str "A")], Json.num 7]),
         ("data", Json.obj [("_id", Json.str "D")])])) = some (Json.str "D") :=
  ⟨rfl, rfl, rfl, rfl, rfl⟩

end ApiCheck
